import Mathlib

/-!
Shallow embedding of the timefusion repository (Rust) in Lean 4, covering the
project-routing table, the write path, the project catalog, the schema
registry and the PostgreSQL wire front end.

Sources embedded here:
- src/database.rs: `ProjectRoutingTable::extract_project_id`,
  `extract_project_id_from_filters`, `scan`, `supports_filters_pushdown`,
  `insert_into`, `write_all`, `Database::resolve_table`,
  `Database::insert_records_batch`, `Database::register_project` (the
  load-or-create step).
- src/persistent_queue.rs: `OtelLogsAndSpans::columns`, `partitions` (the
  reflected field list is transcribed from the struct definition together
  with the `TracingOptions` overwrites).
- src/pgwire_integration.rs: `into_pg_type`, `pgwire_schema_from_arrow`,
  `encode_dataframe` (the field-advertisement part).

External libraries (DataFusion, delta-rs, pgwire) appear as small inductive
fragments restricted to the constructors this repository uses, and the
delta-rs write/load/create operations are abstracted as explicit function
parameters, since the repository treats them as a black box.
-/

namespace TimeFusion

/-! ## Arrow data model (fragment used by the repository) -/

/-- Arrow time units (`arrow_schema::TimeUnit`). -/
inductive ArrowTimeUnit
  | second
  | millisecond
  | microsecond
  | nanosecond
deriving DecidableEq, Repr

/-- Fragment of `arrow_schema::DataType`: the constructors that occur in the
repository (Utf8, Timestamp, Int64, Int32 in the wire mapping; UInt32/UInt64
from the reflected row shape) plus a few further representatives standing for
the rest of the Arrow enum. -/
inductive ArrowDataType
  | utf8
  | largeUtf8
  | boolean
  | int16
  | int32
  | int64
  | uint32
  | uint64
  | float32
  | float64
  | timestamp (unit : ArrowTimeUnit) (tz : Option String)
  | date32
deriving DecidableEq, Repr

/-- An Arrow field: name, data type, nullability (`arrow_schema::Field`). -/
structure ArrowField where
  name : String
  data_type : ArrowDataType
  nullable : Bool
deriving DecidableEq, Repr

/-! ## DataFusion logical expressions (fragment used by `extract_project_id`) -/

/-- Fragment of `datafusion::scalar::ScalarValue`: the Utf8 constructor that
`extract_project_id` matches on, plus representatives of other literal kinds. -/
inductive ScalarValue
  | utf8 (v : Option String)
  | int64 (v : Option Int)
  | boolean (v : Option Bool)
deriving DecidableEq, Repr

/-- Fragment of `datafusion::logical_expr::Operator`. -/
inductive Operator
  | eq
  | notEq
  | lt
  | gt
  | and
  | or
deriving DecidableEq, Repr

/-- Fragment of `datafusion::logical_expr::Expr`: the shapes
`extract_project_id` distinguishes (binary expression, NOT, column, literal)
plus `isNull` as a representative of every other expression variant, which the
source treats through its catch-all `_ => None` arm. -/
inductive Expr
  | column (name : String)
  | literal (v : ScalarValue)
  | binaryExpr (left : Expr) (op : Operator) (right : Expr)
  | not (inner : Expr)
  | isNull (inner : Expr)
deriving DecidableEq, Repr

/-! ## Record batches, delta tables, the project catalog -/

/-- A row of the wide OTel shape, reduced to the fields the verified claims
observe: the `project_id` partition value and the timestamp. -/
structure Row where
  project_id : String
  timestamp : Int
deriving DecidableEq, Repr

/-- `RecordBatch`: an in-memory columnar slice; modelled as its row list. -/
structure RecordBatch where
  rows : List Row
deriving DecidableEq, Repr

/-- `RecordBatch::num_rows`. -/
def RecordBatch.num_rows (b : RecordBatch) : Nat := b.rows.length

/-- A `deltalake::DeltaTable` handle: a version counter and committed data.
The delta commit log itself is external; this is the in-memory view. -/
structure DeltaTable where
  version : Nat
  files : List RecordBatch
deriving DecidableEq, Repr

/-- Error type of the delta-rs black box (`deltalake::DeltaTableError`),
split into the kind the spec singles out (table not present at the URI)
and everything else. -/
inductive DeltaTableError
  | notATable (msg : String)
  | generic (msg : String)
deriving DecidableEq, Repr

/-- `TimeFusionError` (src/error.rs): the repository error type, restricted
to the constructors used on the embedded paths. -/
inductive TimeFusionError
  | generic (msg : String)
  | database (e : DeltaTableError)
deriving DecidableEq, Repr

/-- `DataFusionError`, restricted to the constructors used on the embedded
paths: execution errors, plan (schema) errors, and `not_impl_err!`. -/
inductive DFError
  | execution (msg : String)
  | plan (msg : String)
  | notImplemented (msg : String)
deriving DecidableEq, Repr

/-- A project configuration, `type ProjectConfig = (String, StorageOptions,
Arc<RwLock<DeltaTable>>)` in src/database.rs. -/
structure ProjectConfig where
  conn_str : String
  storage_options : List (String × String)
  table : DeltaTable
deriving DecidableEq, Repr

/-- The `Database`: the project catalog `HashMap<String, ProjectConfig>`,
modelled as an association list with unique keys via `List.lookup`. -/
structure Database where
  project_configs : List (String × ProjectConfig)
deriving DecidableEq, Repr

/-- Map lookup on the catalog (`project_configs.get(project_id)`). -/
def Database.lookupConfig (db : Database) (project_id : String) :
    Option ProjectConfig :=
  db.project_configs.lookup project_id

/-- Replacement of the in-memory table handle of one project (the effect of
`*table = ...` through the project's `Arc<RwLock<DeltaTable>>`). -/
def Database.setTable (db : Database) (project_id : String) (t : DeltaTable) :
    Database :=
  ⟨db.project_configs.map
    (fun kv => if kv.fst = project_id then (kv.fst, { kv.snd with table := t }) else kv)⟩

/-! ## Schema registry (src/persistent_queue.rs) -/

/-- `OtelLogsAndSpans::partitions()`. -/
def OtelLogsAndSpans.partitions : List String := ["project_id", "timestamp"]

set_option maxHeartbeats 1000000 in
/-- The field list obtained by structural reflection over the
`OtelLogsAndSpans` struct (serde_arrow `from_type`), in declaration order,
with the `TracingOptions` overwrites applied: `project_id` forced to
non-nullable Utf8, `timestamp` forced to non-nullable Timestamp(µs), `id`
forced to non-nullable Utf8, and `observed_timestamp`/`start_time`/`end_time`
forced to nullable Timestamp(µs). `Option<String>` fields reflect as nullable
Utf8, `Option<u32>` as nullable UInt32, `Option<u64>` as nullable UInt64. -/
def OtelLogsAndSpans.reflectedFields : List ArrowField :=
  [⟨"observed_timestamp", ArrowDataType.timestamp ArrowTimeUnit.microsecond none, true⟩,
   ⟨"id", ArrowDataType.utf8, false⟩,
   ⟨"parent_id", ArrowDataType.utf8, true⟩,
   ⟨"name", ArrowDataType.utf8, true⟩,
   ⟨"kind", ArrowDataType.utf8, true⟩,
   ⟨"status_code", ArrowDataType.utf8, true⟩,
   ⟨"status_message", ArrowDataType.utf8, true⟩,
   ⟨"level", ArrowDataType.utf8, true⟩,
   ⟨"severity___severity_text", ArrowDataType.utf8, true⟩,
   ⟨"severity___severity_number", ArrowDataType.utf8, true⟩,
   ⟨"body", ArrowDataType.utf8, true⟩,
   ⟨"duration", ArrowDataType.uint64, true⟩,
   ⟨"start_time", ArrowDataType.timestamp ArrowTimeUnit.microsecond none, true⟩,
   ⟨"end_time", ArrowDataType.timestamp ArrowTimeUnit.microsecond none, true⟩,
   ⟨"context___trace_id", ArrowDataType.utf8, true⟩,
   ⟨"context___span_id", ArrowDataType.utf8, true⟩,
   ⟨"context___trace_state", ArrowDataType.utf8, true⟩,
   ⟨"context___trace_flags", ArrowDataType.utf8, true⟩,
   ⟨"context___is_remote", ArrowDataType.utf8, true⟩,
   ⟨"events", ArrowDataType.utf8, true⟩,
   ⟨"links", ArrowDataType.utf8, true⟩,
   ⟨"attributes___client___address", ArrowDataType.utf8, true⟩,
   ⟨"attributes___client___port", ArrowDataType.uint32, true⟩,
   ⟨"attributes___server___address", ArrowDataType.utf8, true⟩,
   ⟨"attributes___server___port", ArrowDataType.uint32, true⟩,
   ⟨"attributes___network___local__address", ArrowDataType.utf8, true⟩,
   ⟨"attributes___network___local__port", ArrowDataType.uint32, true⟩,
   ⟨"attributes___network___peer___address", ArrowDataType.utf8, true⟩,
   ⟨"attributes___network___peer__port", ArrowDataType.uint32, true⟩,
   ⟨"attributes___network___protocol___name", ArrowDataType.utf8, true⟩,
   ⟨"attributes___network___protocol___version", ArrowDataType.utf8, true⟩,
   ⟨"attributes___network___transport", ArrowDataType.utf8, true⟩,
   ⟨"attributes___network___type", ArrowDataType.utf8, true⟩,
   ⟨"attributes___code___number", ArrowDataType.uint32, true⟩,
   ⟨"attributes___code___file___path", ArrowDataType.uint32, true⟩,
   ⟨"attributes___code___function___name", ArrowDataType.uint32, true⟩,
   ⟨"attributes___code___line___number", ArrowDataType.uint32, true⟩,
   ⟨"attributes___code___stacktrace", ArrowDataType.uint32, true⟩,
   ⟨"attributes___log__record___original", ArrowDataType.utf8, true⟩,
   ⟨"attributes___log__record___uid", ArrowDataType.utf8, true⟩,
   ⟨"attributes___error___type", ArrowDataType.utf8, true⟩,
   ⟨"attributes___exception___type", ArrowDataType.utf8, true⟩,
   ⟨"attributes___exception___message", ArrowDataType.utf8, true⟩,
   ⟨"attributes___exception___stacktrace", ArrowDataType.utf8, true⟩,
   ⟨"attributes___url___fragment", ArrowDataType.utf8, true⟩,
   ⟨"attributes___url___full", ArrowDataType.utf8, true⟩,
   ⟨"attributes___url___path", ArrowDataType.utf8, true⟩,
   ⟨"attributes___url___query", ArrowDataType.utf8, true⟩,
   ⟨"attributes___url___scheme", ArrowDataType.utf8, true⟩,
   ⟨"attributes___user_agent___original", ArrowDataType.utf8, true⟩,
   ⟨"attributes___http___request___method", ArrowDataType.utf8, true⟩,
   ⟨"attributes___http___request___method_original", ArrowDataType.utf8, true⟩,
   ⟨"attributes___http___response___status_code", ArrowDataType.utf8, true⟩,
   ⟨"attributes___http___request___resend_count", ArrowDataType.utf8, true⟩,
   ⟨"attributes___http___request___body___size", ArrowDataType.utf8, true⟩,
   ⟨"attributes___session___id", ArrowDataType.utf8, true⟩,
   ⟨"attributes___session___previous___id", ArrowDataType.utf8, true⟩,
   ⟨"attributes___db___system___name", ArrowDataType.utf8, true⟩,
   ⟨"attributes___db___collection___name", ArrowDataType.utf8, true⟩,
   ⟨"attributes___db___namespace", ArrowDataType.utf8, true⟩,
   ⟨"attributes___db___operation___name", ArrowDataType.utf8, true⟩,
   ⟨"attributes___db___response___status_code", ArrowDataType.utf8, true⟩,
   ⟨"attributes___db___operation___batch___size", ArrowDataType.uint32, true⟩,
   ⟨"attributes___db___query___summary", ArrowDataType.utf8, true⟩,
   ⟨"attributes___db___query___text", ArrowDataType.utf8, true⟩,
   ⟨"attributes___user___id", ArrowDataType.utf8, true⟩,
   ⟨"attributes___user___email", ArrowDataType.utf8, true⟩,
   ⟨"attributes___user___full_name", ArrowDataType.utf8, true⟩,
   ⟨"attributes___user___name", ArrowDataType.utf8, true⟩,
   ⟨"attributes___user___hash", ArrowDataType.utf8, true⟩,
   ⟨"resource___attributes___service___name", ArrowDataType.utf8, true⟩,
   ⟨"resource___attributes___service___version", ArrowDataType.utf8, true⟩,
   ⟨"resource___attributes___service___instance___id", ArrowDataType.utf8, true⟩,
   ⟨"resource___attributes___service___namespace", ArrowDataType.utf8, true⟩,
   ⟨"resource___attributes___telemetry___sdk___language", ArrowDataType.utf8, true⟩,
   ⟨"resource___attributes___telemetry___sdk___name", ArrowDataType.utf8, true⟩,
   ⟨"resource___attributes___telemetry___sdk___version", ArrowDataType.utf8, true⟩,
   ⟨"resource___attributes___user_agent___original", ArrowDataType.utf8, true⟩,
   ⟨"project_id", ArrowDataType.utf8, false⟩,
   ⟨"timestamp", ArrowDataType.timestamp ArrowTimeUnit.microsecond none, false⟩]

/-- The validation step of `OtelLogsAndSpans::columns()` applied to a
reflected field list: the source checks `fields.len() < 2`, that the
second-to-last field has data type `Utf8` and that the last field has data
type `Timestamp(Microsecond, None)`; on violation it returns the
schema-validation (`SchemaInvariant`) error, otherwise the field list
(converted to delta `StructField`s, an external conversion modelled as the
identity on the field descriptors). -/
def OtelLogsAndSpans.columnsCheck (fields : List ArrowField) :
    Except TimeFusionError (List ArrowField) :=
  if fields.length < 2
      ∨ (fields.get? (fields.length - 2)).map ArrowField.data_type ≠ some ArrowDataType.utf8
      ∨ (fields.get? (fields.length - 1)).map ArrowField.data_type
          ≠ some (ArrowDataType.timestamp ArrowTimeUnit.microsecond none)
  then Except.error (TimeFusionError.generic
        "Schema validation failed: expected project_id (Utf8) and timestamp (Timestamp) at end")
  else Except.ok fields

/-- `OtelLogsAndSpans::columns()`: reflect the row shape, then validate. -/
def OtelLogsAndSpans.columns : Except TimeFusionError (List ArrowField) :=
  OtelLogsAndSpans.columnsCheck OtelLogsAndSpans.reflectedFields

/-! ## Project catalog operations (src/database.rs) -/

/-- `Database::resolve_table`: the handle for `project_id` if registered, the
default handle as a fallback for a different id, otherwise an execution
error. -/
def Database.resolve_table (db : Database) (project_id : String) :
    Except DFError DeltaTable :=
  match Database.lookupConfig db project_id with
  | some cfg => Except.ok cfg.table
  | none =>
    if project_id ≠ "default" then
      match Database.lookupConfig db "default" with
      | some cfg => Except.ok cfg.table
      | none => Except.error (DFError.execution
          "Unknown project_id and no default project found")
    else Except.error (DFError.execution
        "Unknown project_id and no default project found")

/-- `Database::insert_records_batch`: look up the `default` project (the
`_table` argument is ignored by the source), run the delta write operation on
its handle with the partition columns from the schema registry, and replace
the in-memory handle only on success. The delta `DeltaOps::write` black box is
the `write` parameter. Returns the post-call catalog state together with the
call's result. -/
def Database.insert_records_batch
    (write : DeltaTable → List String → List RecordBatch → Except DeltaTableError DeltaTable)
    (db : Database) ( _table : String) (batch : List RecordBatch) :
    Database × Except TimeFusionError Unit :=
  match Database.lookupConfig db "default" with
  | none => (db, Except.error (TimeFusionError.generic "Project ID default not found"))
  | some cfg =>
    match write cfg.table OtelLogsAndSpans.partitions batch with
    | Except.ok newTable => (Database.setTable db "default" newTable, Except.ok ())
    | Except.error e => (db, Except.error (TimeFusionError.database e))

/-- The load-or-create step of `Database::register_project` (src/database.rs
lines 319-333): attempt to load the delta table at the URI; on `Ok` use the
loaded table; on `Err` of ANY kind, log and run the create path, returning its
result. The returned Bool records whether the create path ran. The load and
create black boxes are passed as the already-awaited results of
`DeltaTableBuilder::load` and `DeltaOps::create`. -/
def Database.load_or_create_table
    (load : Except DeltaTableError DeltaTable)
    (create : Except DeltaTableError DeltaTable) :
    Bool × Except DeltaTableError DeltaTable :=
  match load with
  | Except.ok t => (false, Except.ok t)
  | Except.error _err => (true, create)

/-- `Database::register_project`: run the load-or-create step and insert the
resulting handle into the catalog under `project_id`. A load-or-create error
propagates as `TimeFusionError::Database`. -/
def Database.register_project
    (load create : Except DeltaTableError DeltaTable)
    (db : Database) (project_id conn_str : String)
    (storage_options : List (String × String)) :
    Except TimeFusionError Database :=
  match (Database.load_or_create_table load create).snd with
  | Except.error e => Except.error (TimeFusionError.database e)
  | Except.ok t =>
    Except.ok ⟨(project_id, ⟨conn_str, storage_options, t⟩) :: db.project_configs⟩

/-! ## ProjectRoutingTable: predicate-driven project binding -/

/-- One arm of the equality check inside `extract_project_id`: `colSide` must
be the column `project_id` and `litSide` a non-null Utf8 string literal. -/
def utf8_literal_eq_side (colSide litSide : Expr) : Option String :=
  match colSide, litSide with
  | Expr.column c, Expr.literal (ScalarValue.utf8 (some v)) =>
    if c = "project_id" then some v else none
  | _, _ => none

/-- `ProjectRoutingTable::extract_project_id`: on an equality, check
column-on-left/literal-on-right first, then literal-on-left/column-on-right;
recurse through NOT; every other shape yields no binding. -/
def ProjectRoutingTable.extract_project_id : Expr → Option String
  | Expr.binaryExpr left op right =>
    if op = Operator.eq then
      match utf8_literal_eq_side left right with
      | some v => some v
      | none => utf8_literal_eq_side right left
    else none
  | Expr.not inner => ProjectRoutingTable.extract_project_id inner
  | _ => none

/-- `ProjectRoutingTable::extract_project_id_from_filters`: first match in
list order wins. -/
def ProjectRoutingTable.extract_project_id_from_filters : List Expr → Option String
  | [] => none
  | f :: rest =>
    match ProjectRoutingTable.extract_project_id f with
    | some v => some v
    | none => ProjectRoutingTable.extract_project_id_from_filters rest

/-- The project a scan binds to (line 472 of src/database.rs): the extracted
project id, or the configured default project name. -/
def ProjectRoutingTable.scan_binding (default_project : String)
    (filters : List Expr) : String :=
  (ProjectRoutingTable.extract_project_id_from_filters filters).getD default_project

/-- The plan a successful `scan` produces: the delegated scan on the bound
delta table, carrying the projection, filters and limit through unmodified. -/
structure ScanPlan where
  project : String
  table : DeltaTable
  projection : Option (List Nat)
  filters : List Expr
  limit : Option Nat
deriving DecidableEq, Repr

/-- `ProjectRoutingTable::scan`: compute the binding, resolve the table
through the catalog, and delegate with the original projection, filters and
limit. -/
def ProjectRoutingTable.scan (default_project : String) (db : Database)
    (projection : Option (List Nat)) (filters : List Expr) (limit : Option Nat) :
    Except DFError ScanPlan :=
  match Database.resolve_table db (ProjectRoutingTable.scan_binding default_project filters) with
  | Except.error e => Except.error e
  | Except.ok t =>
    Except.ok ⟨ProjectRoutingTable.scan_binding default_project filters, t,
      projection, filters, limit⟩

/-- `TableProviderFilterPushDown` (DataFusion). -/
inductive TableProviderFilterPushDown
  | Unsupported
  | Inexact
  | Exact
deriving DecidableEq, Repr

/-- `ProjectRoutingTable::supports_filters_pushdown`: every filter is
reported `Inexact`. -/
def ProjectRoutingTable.supports_filters_pushdown (filter : List Expr) :
    List TableProviderFilterPushDown :=
  filter.map (fun _ => TableProviderFilterPushDown.Inexact)

/-! ## ProjectRoutingTable: insertion sink (DataSink::write_all) -/

/-- Collection loop of `write_all`: pull every item from the input stream (a
list of already-awaited stream results), propagating a stream error, and
accumulate the batch vector together with the total row count. -/
def DataSink.collect :
    List (Except DFError RecordBatch) → Except DFError (List RecordBatch × Nat)
  | [] => Except.ok ([], 0)
  | Except.error e :: _ => Except.error e
  | Except.ok b :: rest =>
    match DataSink.collect rest with
    | Except.ok (bs, n) => Except.ok (b :: bs, RecordBatch.num_rows b + n)
    | Except.error e => Except.error e

/-- `ProjectRoutingTable::write_all` (the DataSink impl): pull every batch
counting rows, hand the vector to `insert_records_batch` with an empty table
name, map an insertion error to an execution error, and return the row count
on success. Returns the post-call catalog state together with the result. -/
def ProjectRoutingTable.write_all
    (write : DeltaTable → List String → List RecordBatch → Except DeltaTableError DeltaTable)
    (db : Database) (data : List (Except DFError RecordBatch)) :
    Database × Except DFError Nat :=
  match DataSink.collect data with
  | Except.error e => (db, Except.error e)
  | Except.ok (new_batches, row_count) =>
    match Database.insert_records_batch write db "" new_batches with
    | (db2, Except.ok ()) => (db2, Except.ok row_count)
    | (db2, Except.error _e) =>
      (db2, Except.error (DFError.execution "Failed to insert records"))

/-! ## ProjectRoutingTable: insert_into -/

/-- `InsertOp` (DataFusion dml): append, overwrite, replace. -/
inductive InsertOp
  | Append
  | Overwrite
  | Replace
deriving DecidableEq, Repr

/-- Rendering of an `InsertOp` for the `not_impl_err!` message. -/
def InsertOp.display : InsertOp → String
  | InsertOp.Append => "Append"
  | InsertOp.Overwrite => "Overwrite"
  | InsertOp.Replace => "Replace"

/-- DataFusion `SchemaExt::logically_equivalent_names_and_types` (external):
same field count and pointwise equal names and logically equal data types
(nullability is not compared); on mismatch, a plan error. -/
def logically_equivalent_names_and_types (self other : List ArrowField) :
    Except DFError Unit :=
  if self.length = other.length
      ∧ (self.zip other).all
          (fun p => p.fst.name = p.snd.name ∧ p.fst.data_type = p.snd.data_type)
  then Except.ok ()
  else Except.error (DFError.plan "Inserting query must have the same schema with the table.")

/-- The execution plan `insert_into` builds on success: a `DataSinkExec` over
the input plan. -/
structure DataSinkExec where
  input_schema : List ArrowField
deriving DecidableEq, Repr

/-- `ProjectRoutingTable::insert_into`: first the schema check (its error
propagates), then the insert-mode check (`not_impl_err!` for non-Append),
then the sink plan. -/
def ProjectRoutingTable.insert_into (table_schema input_schema : List ArrowField)
    (insert_op : InsertOp) : Except DFError DataSinkExec :=
  match logically_equivalent_names_and_types table_schema input_schema with
  | Except.error e => Except.error e
  | Except.ok () =>
    if insert_op ≠ InsertOp.Append then
      Except.error (DFError.notImplemented
        (InsertOp.display insert_op ++ " not implemented for MemoryTable yet"))
    else Except.ok ⟨input_schema⟩

/-! ## Wire front end (src/pgwire_integration.rs) -/

/-- PostgreSQL types produced by `into_pg_type`. -/
inductive PgType
  | TEXT
  | TIMESTAMP
  | INT8
  | INT4
deriving DecidableEq, Repr

/-- pgwire `FieldFormat`. -/
inductive FieldFormat
  | Text
  | Binary
deriving DecidableEq, Repr

/-- pgwire portal `Format` as requested by the client. -/
inductive PortalFormat
  | UnifiedText
  | UnifiedBinary
deriving DecidableEq, Repr

/-- pgwire `FieldInfo` restricted to the parts the source sets: field name,
PostgreSQL type, field format. -/
structure FieldInfo where
  name : String
  pg_type : PgType
  format : FieldFormat
deriving DecidableEq, Repr

/-- `into_pg_type`: Utf8 to TEXT, microsecond Timestamp (any timezone) to
TIMESTAMP, Int64 to INT8, Int32 to INT4, everything else to TEXT. The Rust
function returns `Result` but every arm is `Ok`. -/
def into_pg_type : ArrowDataType → PgType
  | ArrowDataType.utf8 => PgType.TEXT
  | ArrowDataType.timestamp ArrowTimeUnit.microsecond _ => PgType.TIMESTAMP
  | ArrowDataType.int64 => PgType.INT8
  | ArrowDataType.int32 => PgType.INT4
  | _ => PgType.TEXT

/-- `pgwire_schema_from_arrow`: every field is advertised with
`FieldFormat::Text` and the `into_pg_type` mapping. -/
def pgwire_schema_from_arrow (schema : List ArrowField) : List FieldInfo :=
  schema.map (fun f => ⟨f.name, into_pg_type f.data_type, FieldFormat.Text⟩)

/-- The field list `encode_dataframe` sends: the `_format` argument (the
format the client requested) is ignored by the source; the advertised fields
come from `pgwire_schema_from_arrow` alone. -/
def encode_dataframe_fields (schema : List ArrowField) ( _format : PortalFormat) :
    List FieldInfo :=
  pgwire_schema_from_arrow schema

/-! ## Spec-level description of the binding rule (for claim C1)

The predicate below follows the wording of the specification: a filter binds
the scan to project `v` exactly when it is an equality between the column
`project_id` and the Utf8 string literal `v`, with the literal on either side
of the equality, recursing through NOT expressions. -/

/-- Spec wording: `project_id = <utf8-literal>` or `<utf8-literal> =
project_id` binds to that project; `NOT e` binds to whatever `e` binds to. -/
inductive BindsTo : Expr → String → Prop
  | eqLeft (v : String) :
      BindsTo (Expr.binaryExpr (Expr.column "project_id") Operator.eq
        (Expr.literal (ScalarValue.utf8 (some v)))) v
  | eqRight (v : String) :
      BindsTo (Expr.binaryExpr (Expr.literal (ScalarValue.utf8 (some v)))
        Operator.eq (Expr.column "project_id")) v
  | notRec {e : Expr} {v : String} :
      BindsTo e v → BindsTo (Expr.not e) v

theorem utf8_literal_eq_side_eq_some (a b : Expr) (v : String) :
    utf8_literal_eq_side a b = some v ↔
      a = Expr.column "project_id" ∧ b = Expr.literal (ScalarValue.utf8 (some v)) := by
  cases a with
  | column c =>
    cases b with
    | literal s =>
      cases s with
      | utf8 o =>
        cases o with
        | none => simp [utf8_literal_eq_side]
        | some w =>
          by_cases hc : c = "project_id"
          · subst hc
            simp [utf8_literal_eq_side, eq_comm]
          · simp [utf8_literal_eq_side, hc]
      | int64 o => simp [utf8_literal_eq_side]
      | boolean o => simp [utf8_literal_eq_side]
    | column c2 => simp [utf8_literal_eq_side]
    | binaryExpr l op r => simp [utf8_literal_eq_side]
    | not inner => simp [utf8_literal_eq_side]
    | isNull inner => simp [utf8_literal_eq_side]
  | literal s => cases b <;> simp [utf8_literal_eq_side]
  | binaryExpr l op r => cases b <;> simp [utf8_literal_eq_side]
  | not inner => cases b <;> simp [utf8_literal_eq_side]
  | isNull inner => cases b <;> simp [utf8_literal_eq_side]

theorem extract_project_id_eq_some_iff (e : Expr) (v : String) :
    ProjectRoutingTable.extract_project_id e = some v ↔ BindsTo e v := by
  induction e with
  | column c =>
    simp only [ProjectRoutingTable.extract_project_id]
    constructor
    · intro h; cases h
    · intro h; cases h
  | literal s =>
    simp only [ProjectRoutingTable.extract_project_id]
    constructor
    · intro h; cases h
    · intro h; cases h
  | isNull inner ih =>
    simp only [ProjectRoutingTable.extract_project_id]
    constructor
    · intro h; cases h
    · intro h; cases h
  | not inner ih =>
    simp only [ProjectRoutingTable.extract_project_id]
    constructor
    · intro h; exact BindsTo.notRec (ih.mp h)
    · intro h; cases h with
      | notRec hb => exact ih.mpr hb
  | binaryExpr l op r ihl ihr =>
    simp only [ProjectRoutingTable.extract_project_id]
    by_cases hop : op = Operator.eq
    · subst hop
      simp only [if_pos rfl]
      constructor
      · intro h
        cases hlr : utf8_literal_eq_side l r with
        | some w =>
          rw [hlr] at h
          have hwv : w = v := Option.some.inj h
          rw [hwv] at hlr
          obtain ⟨ha, hb⟩ := (utf8_literal_eq_side_eq_some l r v).mp hlr
          rw [ha, hb]
          exact BindsTo.eqLeft v
        | none =>
          rw [hlr] at h
          obtain ⟨ha, hb⟩ := (utf8_literal_eq_side_eq_some r l v).mp h
          rw [ha, hb]
          exact BindsTo.eqRight v
      · intro h
        cases h <;> simp [utf8_literal_eq_side]
    · simp only [if_neg hop]
      constructor
      · intro h; cases h
      · intro h
        cases h <;> exact absurd rfl hop

/-- A filter with no spec-level binding extracts nothing. -/
theorem extract_project_id_eq_none_of_no_binding (e : Expr)
    (h : ∀ w, ¬ BindsTo e w) :
    ProjectRoutingTable.extract_project_id e = none := by
  cases hx : ProjectRoutingTable.extract_project_id e with
  | none => rfl
  | some w => exact absurd ((extract_project_id_eq_some_iff e w).mp hx) (h w)

theorem extract_from_filters_append_of_none (pre fs : List Expr)
    (h : ∀ x ∈ pre, ProjectRoutingTable.extract_project_id x = none) :
    ProjectRoutingTable.extract_project_id_from_filters (pre ++ fs) =
      ProjectRoutingTable.extract_project_id_from_filters fs := by
  induction pre with
  | nil => rfl
  | cons p ps ih =>
    have hp : ProjectRoutingTable.extract_project_id p = none :=
      h p (List.mem_cons_self p ps)
    simp only [List.cons_append, ProjectRoutingTable.extract_project_id_from_filters, hp]
    exact ih (fun x hx => h x (List.mem_cons_of_mem p hx))

theorem extract_from_filters_eq_none (fs : List Expr)
    (h : ∀ x ∈ fs, ProjectRoutingTable.extract_project_id x = none) :
    ProjectRoutingTable.extract_project_id_from_filters fs = none := by
  induction fs with
  | nil => rfl
  | cons p ps ih =>
    have hp : ProjectRoutingTable.extract_project_id p = none :=
      h p (List.mem_cons_self p ps)
    simp only [ProjectRoutingTable.extract_project_id_from_filters, hp]
    exact ih (fun x hx => h x (List.mem_cons_of_mem p hx))

/-! ## Claim theorems -/

/-- C1: for every filter list passed to `ProjectRoutingTable::scan`, the scan
binds to the project named by the first filter (in list order) that is an
equality between the column `project_id` and a Utf8 string literal, with the
literal on either side and recursing through NOT; every other expression
shape yields no binding, and if no filter matches, the scan binds to the
configured default project name. -/
theorem C1_scan_binds_first_matching_filter (d : String) :
    (∀ (pre post : List Expr) (e : Expr) (v : String),
        (∀ x ∈ pre, ∀ w, ¬ BindsTo x w) → BindsTo e v →
        ProjectRoutingTable.scan_binding d (pre ++ e :: post) = v)
  ∧ (∀ fs : List Expr, (∀ x ∈ fs, ∀ w, ¬ BindsTo x w) →
        ProjectRoutingTable.scan_binding d fs = d)
  ∧ (∀ (e : Expr) (v : String),
        ProjectRoutingTable.extract_project_id e = some v ↔ BindsTo e v)
  ∧ (∀ (db : Database) (projection : Option (List Nat)) (fs : List Expr)
        (limit : Option Nat) (p : ScanPlan),
        ProjectRoutingTable.scan d db projection fs limit = Except.ok p →
        p.project = ProjectRoutingTable.scan_binding d fs) := by
  refine ⟨?first, ?noneCase, extract_project_id_eq_some_iff, ?scanCase⟩
  · intro pre post e v hpre hbind
    have hprenone : ∀ x ∈ pre, ProjectRoutingTable.extract_project_id x = none :=
      fun x hx => extract_project_id_eq_none_of_no_binding x (hpre x hx)
    have he : ProjectRoutingTable.extract_project_id e = some v :=
      (extract_project_id_eq_some_iff e v).mpr hbind
    unfold ProjectRoutingTable.scan_binding
    rw [extract_from_filters_append_of_none pre (e :: post) hprenone]
    simp [ProjectRoutingTable.extract_project_id_from_filters, he]
  · intro fs hfs
    have : ProjectRoutingTable.extract_project_id_from_filters fs = none :=
      extract_from_filters_eq_none fs
        (fun x hx => extract_project_id_eq_none_of_no_binding x (hfs x hx))
    unfold ProjectRoutingTable.scan_binding
    rw [this]
    rfl
  · intro db projection fs limit p hscan
    unfold ProjectRoutingTable.scan at hscan
    cases hres : Database.resolve_table db (ProjectRoutingTable.scan_binding d fs) with
    | error e => rw [hres] at hscan; cases hscan
    | ok t =>
      rw [hres] at hscan
      cases hscan
      rfl

/-- Witness for C1: with an unrelated filter first, the scan binds to the
project of the first matching equality filter, not the second. -/
theorem C1_witness :
    ProjectRoutingTable.scan_binding "default"
      [Expr.isNull (Expr.column "level"),
       Expr.binaryExpr (Expr.column "project_id") Operator.eq
         (Expr.literal (ScalarValue.utf8 (some "p1"))),
       Expr.binaryExpr (Expr.column "project_id") Operator.eq
         (Expr.literal (ScalarValue.utf8 (some "p2")))] = "p1" :=
  (C1_scan_binds_first_matching_filter "default").1
    [Expr.isNull (Expr.column "level")]
    [Expr.binaryExpr (Expr.column "project_id") Operator.eq
       (Expr.literal (ScalarValue.utf8 (some "p2")))]
    (Expr.binaryExpr (Expr.column "project_id") Operator.eq
       (Expr.literal (ScalarValue.utf8 (some "p1")))) "p1"
    (by
      intro x hx w hb
      have hex : ProjectRoutingTable.extract_project_id x = some w :=
        (extract_project_id_eq_some_iff x w).mpr hb
      have hxeq : x = Expr.isNull (Expr.column "level") := by
        simpa using hx
      rw [hxeq] at hex
      simp [ProjectRoutingTable.extract_project_id] at hex)
    (BindsTo.eqLeft "p1")

/-- C7: `supports_filters_pushdown` returns one `Inexact` entry per filter,
and `scan` passes the filter list (and projection and limit) to the bound
delta table unmodified. -/
theorem C7_pushdown_inexact_filters_unmodified (filters : List Expr) :
    (ProjectRoutingTable.supports_filters_pushdown filters).length = filters.length
  ∧ (∀ p ∈ ProjectRoutingTable.supports_filters_pushdown filters,
      p = TableProviderFilterPushDown.Inexact)
  ∧ (∀ (d : String) (db : Database) (projection : Option (List Nat))
      (limit : Option Nat) (plan : ScanPlan),
      ProjectRoutingTable.scan d db projection filters limit = Except.ok plan →
      plan.filters = filters ∧ plan.projection = projection ∧ plan.limit = limit) := by
  refine ⟨?len, ?allInexact, ?scanCase⟩
  · simp [ProjectRoutingTable.supports_filters_pushdown]
  · intro p hp
    rcases List.mem_map.mp hp with ⟨x, hx, hpe⟩
    exact hpe.symm
  · intro d db projection limit plan hscan
    unfold ProjectRoutingTable.scan at hscan
    cases hres : Database.resolve_table db (ProjectRoutingTable.scan_binding d filters) with
    | error e => rw [hres] at hscan; cases hscan
    | ok t =>
      rw [hres] at hscan
      cases hscan
      exact ⟨rfl, rfl, rfl⟩

/-- Witness for C7: a concrete two-filter list together with a concrete scan
through a catalog holding a default project. -/
theorem C7_witness :
    (ProjectRoutingTable.supports_filters_pushdown
        [Expr.isNull (Expr.column "name"), Expr.column "level"]).length = 2
  ∧ (ProjectRoutingTable.scan "default"
        ⟨[("default", ⟨"s3-uri", [], ⟨0, []⟩⟩)]⟩ none
        [Expr.isNull (Expr.column "name"), Expr.column "level"] none
      = Except.ok ⟨"default", ⟨0, []⟩, none,
          [Expr.isNull (Expr.column "name"), Expr.column "level"], none⟩) := by
  constructor
  · exact (C7_pushdown_inexact_filters_unmodified
      [Expr.isNull (Expr.column "name"), Expr.column "level"]).1
  · rfl

/-- C10: an equality filter on `project_id` whose literal is not a non-null
Utf8 string produces no project binding, and a scan with only such a filter
silently routes to the default project. -/
theorem C10_non_utf8_literal_binds_default (d : String) (lit : ScalarValue)
    (h : ∀ s : String, lit ≠ ScalarValue.utf8 (some s)) :
    ProjectRoutingTable.extract_project_id
        (Expr.binaryExpr (Expr.column "project_id") Operator.eq (Expr.literal lit)) = none
  ∧ ProjectRoutingTable.extract_project_id
        (Expr.binaryExpr (Expr.literal lit) Operator.eq (Expr.column "project_id")) = none
  ∧ ProjectRoutingTable.scan_binding d
        [Expr.binaryExpr (Expr.column "project_id") Operator.eq (Expr.literal lit)] = d
  ∧ (∀ (db : Database) (projection : Option (List Nat)) (limit : Option Nat)
        (t : DeltaTable),
        Database.resolve_table db d = Except.ok t →
        ProjectRoutingTable.scan d db projection
            [Expr.binaryExpr (Expr.column "project_id") Operator.eq (Expr.literal lit)]
            limit
          = Except.ok ⟨d, t, projection,
              [Expr.binaryExpr (Expr.column "project_id") Operator.eq (Expr.literal lit)],
              limit⟩) := by
  have hside : utf8_literal_eq_side (Expr.column "project_id") (Expr.literal lit) = none := by
    cases lit with
    | utf8 o =>
      cases o with
      | none => simp [utf8_literal_eq_side]
      | some s => exact absurd rfl (h s)
    | int64 o => simp [utf8_literal_eq_side]
    | boolean o => simp [utf8_literal_eq_side]
  have hside2 : utf8_literal_eq_side (Expr.literal lit) (Expr.column "project_id") = none := by
    cases lit with
    | utf8 o => simp [utf8_literal_eq_side]
    | int64 o => simp [utf8_literal_eq_side]
    | boolean o => simp [utf8_literal_eq_side]
  have hex1 : ProjectRoutingTable.extract_project_id
      (Expr.binaryExpr (Expr.column "project_id") Operator.eq (Expr.literal lit)) = none := by
    simp [ProjectRoutingTable.extract_project_id, hside, hside2]
  have hex2 : ProjectRoutingTable.extract_project_id
      (Expr.binaryExpr (Expr.literal lit) Operator.eq (Expr.column "project_id")) = none := by
    simp [ProjectRoutingTable.extract_project_id, hside, hside2]
  have hbind : ProjectRoutingTable.scan_binding d
      [Expr.binaryExpr (Expr.column "project_id") Operator.eq (Expr.literal lit)] = d := by
    unfold ProjectRoutingTable.scan_binding
    simp [ProjectRoutingTable.extract_project_id_from_filters, hex1]
  refine ⟨hex1, hex2, hbind, ?scanCase⟩
  intro db projection limit t hres
  unfold ProjectRoutingTable.scan
  rw [hbind, hres]

/-- Witness for C10: a NULL Utf8 literal equality on `project_id` routes the
scan to the default project of a concrete catalog. -/
theorem C10_witness :
    ProjectRoutingTable.scan "default"
        ⟨[("default", ⟨"s3-uri", [], ⟨3, []⟩⟩)]⟩ none
        [Expr.binaryExpr (Expr.column "project_id") Operator.eq
           (Expr.literal (ScalarValue.utf8 none))] none
      = Except.ok ⟨"default", ⟨3, []⟩, none,
          [Expr.binaryExpr (Expr.column "project_id") Operator.eq
             (Expr.literal (ScalarValue.utf8 none))], none⟩ :=
  (C10_non_utf8_literal_binds_default "default" (ScalarValue.utf8 none)
      (by intro s hs; cases hs)).2.2.2
    ⟨[("default", ⟨"s3-uri", [], ⟨3, []⟩⟩)]⟩ none none ⟨3, []⟩ rfl

/-- C3: `resolve_table` returns the registered handle for the id; an
unregistered id other than `default` falls back to the default handle; and it
fails exactly when neither the id nor the default project is registered. -/
theorem C3_resolve_table_fallback (db : Database) (project_id : String) :
    (∀ cfg : ProjectConfig, Database.lookupConfig db project_id = some cfg →
        Database.resolve_table db project_id = Except.ok cfg.table)
  ∧ (Database.lookupConfig db project_id = none → project_id ≠ "default" →
      ∀ cfg : ProjectConfig, Database.lookupConfig db "default" = some cfg →
        Database.resolve_table db project_id = Except.ok cfg.table)
  ∧ ((∃ e : DFError, Database.resolve_table db project_id = Except.error e) ↔
      (Database.lookupConfig db project_id = none
        ∧ Database.lookupConfig db "default" = none)) := by
  refine ⟨?registered, ?fallback, ?errCase⟩
  · intro cfg hcfg
    unfold Database.resolve_table
    rw [hcfg]
  · intro hnone hne cfg hdef
    unfold Database.resolve_table
    rw [hnone]
    simp only [if_pos hne, hdef]
  · by_cases hne : project_id = "default"
    · subst hne
      cases hid : Database.lookupConfig db "default" with
      | some cfg => simp [Database.resolve_table, hid]
      | none => simp [Database.resolve_table, hid]
    · cases hid : Database.lookupConfig db project_id with
      | some cfg => simp [Database.resolve_table, hid]
      | none =>
        cases hdef : Database.lookupConfig db "default" with
        | some cfg => simp [Database.resolve_table, hid, hne, hdef]
        | none => simp [Database.resolve_table, hid, hne, hdef]

/-- Witness for C3: in a catalog holding only the default project, an unknown
project id resolves to the default handle. -/
theorem C3_witness :
    Database.resolve_table ⟨[("default", ⟨"s3-uri", [], ⟨7, []⟩⟩)]⟩ "missing"
      = Except.ok (⟨7, []⟩ : DeltaTable) :=
  (C3_resolve_table_fallback ⟨[("default", ⟨"s3-uri", [], ⟨7, []⟩⟩)]⟩ "missing").2.1
    rfl (by decide) ⟨"s3-uri", [], ⟨7, []⟩⟩ rfl

/-- C5: `insert_records_batch` is atomic with respect to the in-memory table
handle: when the delta commit succeeds the default handle is replaced by the
post-commit table, and when the commit fails the call returns an error and
the catalog state is returned unchanged. -/
theorem C5_insert_records_batch_atomic
    (write : DeltaTable → List String → List RecordBatch → Except DeltaTableError DeltaTable)
    (db : Database) (tbl : String) (batch : List RecordBatch)
    (cfg : ProjectConfig) (hdef : Database.lookupConfig db "default" = some cfg) :
    (∀ t2 : DeltaTable, write cfg.table OtelLogsAndSpans.partitions batch = Except.ok t2 →
        Database.insert_records_batch write db tbl batch
          = (Database.setTable db "default" t2, Except.ok ()))
  ∧ (∀ e : DeltaTableError,
        write cfg.table OtelLogsAndSpans.partitions batch = Except.error e →
        Database.insert_records_batch write db tbl batch
          = (db, Except.error (TimeFusionError.database e))) := by
  constructor
  · intro t2 hw
    simp only [Database.insert_records_batch, hdef, hw]
  · intro e hw
    simp only [Database.insert_records_batch, hdef, hw]

/-- Witness for C5: on a concrete catalog, a succeeding commit replaces the
default handle and a failing commit leaves the catalog unchanged. -/
theorem C5_witness :
    Database.insert_records_batch
        (fun t _ bs => Except.ok ⟨t.version + 1, t.files ++ bs⟩)
        ⟨[("default", ⟨"s3-uri", [], ⟨0, []⟩⟩)]⟩ "" [⟨[⟨"p1", 10⟩]⟩]
      = (⟨[("default", ⟨"s3-uri", [], ⟨1, [⟨[⟨"p1", 10⟩]⟩]⟩⟩)]⟩, Except.ok ())
  ∧ Database.insert_records_batch
        (fun _ _ _ => Except.error (DeltaTableError.generic "commit failed"))
        ⟨[("default", ⟨"s3-uri", [], ⟨0, []⟩⟩)]⟩ "" [⟨[⟨"p1", 10⟩]⟩]
      = (⟨[("default", ⟨"s3-uri", [], ⟨0, []⟩⟩)]⟩,
         Except.error (TimeFusionError.database (DeltaTableError.generic "commit failed"))) := by
  constructor
  · have h := (C5_insert_records_batch_atomic
        (fun t _ bs => Except.ok ⟨t.version + 1, t.files ++ bs⟩)
        ⟨[("default", ⟨"s3-uri", [], ⟨0, []⟩⟩)]⟩ "" [⟨[⟨"p1", 10⟩]⟩]
        ⟨"s3-uri", [], ⟨0, []⟩⟩ rfl).1 ⟨1, [⟨[⟨"p1", 10⟩]⟩]⟩ rfl
    exact h
  · have h := (C5_insert_records_batch_atomic
        (fun _ _ _ => Except.error (DeltaTableError.generic "commit failed"))
        ⟨[("default", ⟨"s3-uri", [], ⟨0, []⟩⟩)]⟩ "" [⟨[⟨"p1", 10⟩]⟩]
        ⟨"s3-uri", [], ⟨0, []⟩⟩ rfl).2 (DeltaTableError.generic "commit failed") rfl
    exact h

theorem collect_map_ok (batches : List RecordBatch) :
    DataSink.collect (batches.map Except.ok)
      = Except.ok (batches, (batches.map RecordBatch.num_rows).sum) := by
  induction batches with
  | nil => rfl
  | cons b bs ih =>
    simp only [List.map_cons, DataSink.collect, ih, List.sum_cons]

/-- C2: `write_all` pulls every batch of the stream, sums the rows over all
batches, commits the whole batch vector to the default project (whatever
`project_id` values the rows carry), and on success returns exactly that
total row count. -/
theorem C2_write_all_commits_to_default
    (write : DeltaTable → List String → List RecordBatch → Except DeltaTableError DeltaTable)
    (db : Database) (batches : List RecordBatch)
    (cfg : ProjectConfig) (hdef : Database.lookupConfig db "default" = some cfg)
    (t2 : DeltaTable)
    (hw : write cfg.table OtelLogsAndSpans.partitions batches = Except.ok t2) :
    ProjectRoutingTable.write_all write db (batches.map Except.ok)
      = (Database.setTable db "default" t2,
         Except.ok ((batches.map RecordBatch.num_rows).sum)) := by
  have hins : Database.insert_records_batch write db "" batches
      = (Database.setTable db "default" t2, Except.ok ()) := by
    simp only [Database.insert_records_batch, hdef, hw]
  simp only [ProjectRoutingTable.write_all, collect_map_ok, hins]

/-- Witness for C2: two batches carrying rows of projects other than
`default` are still committed, as one vector, to the default project, and the
reported row count is the total over both batches. -/
theorem C2_witness :
    ProjectRoutingTable.write_all
        (fun t _ bs => Except.ok ⟨t.version + 1, t.files ++ bs⟩)
        ⟨[("default", ⟨"s3-uri", [], ⟨0, []⟩⟩)]⟩
        ([⟨[⟨"alpha", 1⟩, ⟨"beta", 2⟩]⟩, ⟨[⟨"gamma", 3⟩]⟩].map Except.ok)
      = (⟨[("default", ⟨"s3-uri", [],
            ⟨1, [⟨[⟨"alpha", 1⟩, ⟨"beta", 2⟩]⟩, ⟨[⟨"gamma", 3⟩]⟩]⟩⟩)]⟩,
         Except.ok 3) := by
  have h := C2_write_all_commits_to_default
      (fun t _ bs => Except.ok ⟨t.version + 1, t.files ++ bs⟩)
      ⟨[("default", ⟨"s3-uri", [], ⟨0, []⟩⟩)]⟩
      [⟨[⟨"alpha", 1⟩, ⟨"beta", 2⟩]⟩, ⟨[⟨"gamma", 3⟩]⟩]
      ⟨"s3-uri", [], ⟨0, []⟩⟩ rfl
      ⟨1, [⟨[⟨"alpha", 1⟩, ⟨"beta", 2⟩]⟩, ⟨[⟨"gamma", 3⟩]⟩]⟩ rfl
  exact h

/-- C4 counterexample: a load failure that is NOT the "does not exist" error
(here a permission error) still triggers the create path (flag `true`) and
returns the creation result instead of propagating the load error, refuting
the claim that only the "does not exist" error triggers creation. -/
theorem C4_counterexample :
    Database.load_or_create_table
        (Except.error (DeltaTableError.generic "permission denied"))
        (Except.ok ⟨0, []⟩)
      = (true, Except.ok (⟨0, []⟩ : DeltaTable)) := rfl

/-- C4 (amended): in `register_project`, EVERY load failure, of any kind,
triggers an attempt to create a new table; a successful load skips creation;
and no load failure propagates directly, only a failure of the creation
attempt propagates to the caller. -/
theorem C4_amended_any_load_failure_creates
    (load create : Except DeltaTableError DeltaTable) :
    (∀ e : DeltaTableError, load = Except.error e →
        Database.load_or_create_table load create = (true, create))
  ∧ (∀ t : DeltaTable, load = Except.ok t →
        Database.load_or_create_table load create = (false, Except.ok t))
  ∧ (∀ (db : Database) (pid conn : String) (so : List (String × String))
        (e e2 : DeltaTableError),
        load = Except.error e → create = Except.error e2 →
        Database.register_project load create db pid conn so
          = Except.error (TimeFusionError.database e2))
  ∧ (∀ (db : Database) (pid conn : String) (so : List (String × String))
        (e : DeltaTableError) (t : DeltaTable),
        load = Except.error e → create = Except.ok t →
        Database.register_project load create db pid conn so
          = Except.ok ⟨(pid, ⟨conn, so, t⟩) :: db.project_configs⟩) := by
  refine ⟨?errCase, ?okCase, ?propagateCreate, ?createWins⟩
  · intro e he
    rw [he]
    rfl
  · intro t ht
    rw [ht]
    rfl
  · intro db pid conn so e e2 he he2
    rw [he, he2]
    rfl
  · intro db pid conn so e t he ht
    rw [he, ht]
    rfl

/-- Witness for C4 (amended): a concrete non-"does not exist" load error with
a succeeding creation registers the created table. -/
theorem C4_witness :
    Database.register_project
        (Except.error (DeltaTableError.generic "permission denied"))
        (Except.ok ⟨0, []⟩) ⟨[]⟩ "default" "s3-uri" []
      = Except.ok ⟨[("default", ⟨"s3-uri", [], ⟨0, []⟩⟩)]⟩ :=
  (C4_amended_any_load_failure_creates
      (Except.error (DeltaTableError.generic "permission denied"))
      (Except.ok ⟨0, []⟩)).2.2.2 ⟨[]⟩ "default" "s3-uri" []
    (DeltaTableError.generic "permission denied") ⟨0, []⟩ rfl rfl

/-- Discriminator: is the result a `not_impl_err!` (Unimplemented) error? -/
def isNotImplementedError : Except DFError DataSinkExec → Bool
  | Except.error (DFError.notImplemented _) => true
  | _ => false

/-- C6 counterexample: with a non-Append insert mode AND a mismatched input
schema, `insert_into` fails with the schema-mismatch (plan) error, not with
an Unimplemented error, refuting the claim that it fails with Unimplemented
for every insert mode other than Append. -/
theorem C6_counterexample :
    ProjectRoutingTable.insert_into
        [⟨"a", ArrowDataType.utf8, false⟩] [⟨"b", ArrowDataType.int64, true⟩]
        InsertOp.Overwrite
      = Except.error (DFError.plan "Inserting query must have the same schema with the table.")
  ∧ isNotImplementedError
      (ProjectRoutingTable.insert_into
        [⟨"a", ArrowDataType.utf8, false⟩] [⟨"b", ArrowDataType.int64, true⟩]
        InsertOp.Overwrite) = false := ⟨rfl, rfl⟩

/-- C6 (amended): `insert_into` runs the schema check first, so a
schema-mismatch error always propagates; when the schema check passes it
fails with Unimplemented for every insert mode other than Append; and only
when both checks pass does it produce the sink execution plan over the
input. -/
theorem C6_amended_schema_check_first (ts input : List ArrowField) (op : InsertOp) :
    (∀ e : DFError, logically_equivalent_names_and_types ts input = Except.error e →
        ProjectRoutingTable.insert_into ts input op = Except.error e)
  ∧ (logically_equivalent_names_and_types ts input = Except.ok () →
      op ≠ InsertOp.Append →
      ProjectRoutingTable.insert_into ts input op
        = Except.error (DFError.notImplemented
            (InsertOp.display op ++ " not implemented for MemoryTable yet")))
  ∧ (logically_equivalent_names_and_types ts input = Except.ok () →
      ProjectRoutingTable.insert_into ts input InsertOp.Append
        = Except.ok ⟨input⟩) := by
  refine ⟨?schemaErr, ?notImpl, ?success⟩
  · intro e he
    simp only [ProjectRoutingTable.insert_into, he]
  · intro hok hop
    simp only [ProjectRoutingTable.insert_into, hok, if_pos hop]
  · intro hok
    simp only [ProjectRoutingTable.insert_into, hok]
    rw [if_neg (by intro hcon; exact hcon rfl)]

/-- Witness for C6 (amended): with matching schemas, an Overwrite insert
fails with the Unimplemented error. -/
theorem C6_witness :
    ProjectRoutingTable.insert_into
        [⟨"a", ArrowDataType.utf8, false⟩] [⟨"a", ArrowDataType.utf8, true⟩]
        InsertOp.Overwrite
      = Except.error (DFError.notImplemented
          "Overwrite not implemented for MemoryTable yet") :=
  (C6_amended_schema_check_first
      [⟨"a", ArrowDataType.utf8, false⟩] [⟨"a", ArrowDataType.utf8, true⟩]
      InsertOp.Overwrite).2.1 rfl (by decide)

/-- C8: `columns()` succeeds on the reflected row shape and its result ends
with `project_id` (non-nullable Utf8) followed by `timestamp` (non-nullable
microsecond Timestamp); and whenever a reflected field list fails the shape
check (fewer than two fields, or wrong data types in the last two
positions), `columns()` fails with the schema-invariant error. -/
theorem C8_columns_tail_and_validation :
    OtelLogsAndSpans.columns = Except.ok OtelLogsAndSpans.reflectedFields
  ∧ (OtelLogsAndSpans.reflectedFields.get? (OtelLogsAndSpans.reflectedFields.length - 2)
      = some ⟨"project_id", ArrowDataType.utf8, false⟩)
  ∧ (OtelLogsAndSpans.reflectedFields.get? (OtelLogsAndSpans.reflectedFields.length - 1)
      = some ⟨"timestamp", ArrowDataType.timestamp ArrowTimeUnit.microsecond none, false⟩)
  ∧ (∀ fs : List ArrowField,
      (fs.length < 2
        ∨ (fs.get? (fs.length - 2)).map ArrowField.data_type ≠ some ArrowDataType.utf8
        ∨ (fs.get? (fs.length - 1)).map ArrowField.data_type
            ≠ some (ArrowDataType.timestamp ArrowTimeUnit.microsecond none)) →
      OtelLogsAndSpans.columnsCheck fs = Except.error (TimeFusionError.generic
        "Schema validation failed: expected project_id (Utf8) and timestamp (Timestamp) at end")) := by
  refine ⟨?ok, ?tail2, ?tail1, ?failCase⟩
  · rfl
  · rfl
  · rfl
  · intro fs h
    unfold OtelLogsAndSpans.columnsCheck
    rw [if_pos h]

/-- Witness for C8: the empty field list fails the shape check with the
schema-invariant error. -/
theorem C8_witness :
    OtelLogsAndSpans.columnsCheck [] = Except.error (TimeFusionError.generic
      "Schema validation failed: expected project_id (Utf8) and timestamp (Timestamp) at end") :=
  C8_columns_tail_and_validation.2.2.2 [] (Or.inl (by decide))

/-- C9: every advertised result field carries the Text field format, whatever
format the client requested, and `into_pg_type` maps Utf8 to TEXT,
microsecond Timestamp (any timezone) to TIMESTAMP, Int64 to INT8, Int32 to
INT4 and every other data type to TEXT. -/
theorem C9_text_format_and_type_mapping (schema : List ArrowField) (fmt : PortalFormat) :
    (∀ fi ∈ encode_dataframe_fields schema fmt, fi.format = FieldFormat.Text)
  ∧ encode_dataframe_fields schema fmt = pgwire_schema_from_arrow schema
  ∧ into_pg_type ArrowDataType.utf8 = PgType.TEXT
  ∧ (∀ tz : Option String,
      into_pg_type (ArrowDataType.timestamp ArrowTimeUnit.microsecond tz) = PgType.TIMESTAMP)
  ∧ into_pg_type ArrowDataType.int64 = PgType.INT8
  ∧ into_pg_type ArrowDataType.int32 = PgType.INT4
  ∧ (∀ dt : ArrowDataType, dt ≠ ArrowDataType.utf8 →
      (∀ tz : Option String, dt ≠ ArrowDataType.timestamp ArrowTimeUnit.microsecond tz) →
      dt ≠ ArrowDataType.int64 → dt ≠ ArrowDataType.int32 →
      into_pg_type dt = PgType.TEXT) := by
  refine ⟨?allText, rfl, rfl, fun tz => rfl, rfl, rfl, ?otherCase⟩
  · intro fi hfi
    rcases List.mem_map.mp hfi with ⟨f, hf, hfe⟩
    rw [← hfe]
  · intro dt h1 h2 h3 h4
    cases dt with
    | utf8 => exact absurd rfl h1
    | largeUtf8 => rfl
    | boolean => rfl
    | int16 => rfl
    | int32 => exact absurd rfl h4
    | int64 => exact absurd rfl h3
    | uint32 => rfl
    | uint64 => rfl
    | float32 => rfl
    | float64 => rfl
    | date32 => rfl
    | timestamp unit tz =>
      cases unit with
      | second => rfl
      | millisecond => rfl
      | microsecond => exact absurd rfl (h2 tz)
      | nanosecond => rfl

/-- Witness for C9: a concrete schema requested in binary format is still
advertised entirely in Text, and a type outside the mapped four (UInt64)
falls to TEXT. -/
theorem C9_witness :
    encode_dataframe_fields
        [⟨"id", ArrowDataType.utf8, false⟩, ⟨"duration", ArrowDataType.uint64, true⟩]
        PortalFormat.UnifiedBinary
      = [⟨"id", PgType.TEXT, FieldFormat.Text⟩,
         ⟨"duration", PgType.TEXT, FieldFormat.Text⟩]
  ∧ into_pg_type ArrowDataType.uint64 = PgType.TEXT := by
  refine ⟨rfl, ?_⟩
  exact (C9_text_format_and_type_mapping [] PortalFormat.UnifiedText).2.2.2.2.2.2
    ArrowDataType.uint64 (by intro h; cases h) (by intro tz h; cases h)
    (by intro h; cases h) (by intro h; cases h)

end TimeFusion
